import Mathlib

/-
Verification of the AI Hub gateway service (`server.py`).

The service is a thin HTTP proxy with three routes:
  * GET  /api/health  — reports whether a provider credential is configured;
  * GET  /            — serves a co-located index.html, or a fixed fallback fragment;
  * POST /api/chat    — normalizes a loosely-typed JSON body into a message
    list, calls the external completion provider, and maps errors to HTTP
    statuses (400 validation, 500 configuration/provider).

The embedding below models JSON bodies as association lists of `JVal`s with
Python `dict` semantics (`get` returns null for a missing key), Python
truthiness, `str.strip`, and `float()` coercion.  The outbound provider call
is a parameter (an oracle returning either the first choice's message content
or a raised exception rendered as a string), and the chat handler records the
single provider call it makes, if any, so that "no outbound call is made"
claims are expressible.
-/

namespace AIHub

/-- JSON values as delivered to the handler after FastAPI parses the body
(JSON null becomes Python `None`, numbers are modelled as rationals). -/
inductive JVal where
  | null : JVal
  | bool (b : Bool) : JVal
  | num (q : Rat) : JVal
  | str (s : String) : JVal
  | list (xs : List JVal) : JVal
  | obj (fields : List (String × JVal)) : JVal

/-- The request body `body: Dict[str, Any]`: an association list of fields. -/
abbrev PyDict := List (String × JVal)

/-- Python `d.get(k)`: the value at the first occurrence of key `k`, or
`None` (here `JVal.null`) when the key is absent. -/
def dictGet (d : PyDict) (k : String) : JVal :=
  match d.find? (fun p => p.1 == k) with
  | some p => p.2
  | none => .null

/-- Python `d.get(k, default)`: the value at key `k`, or `default` when the
key is absent. -/
def dictGetD (d : PyDict) (k : String) (defv : JVal) : JVal :=
  match d.find? (fun p => p.1 == k) with
  | some p => p.2
  | none => defv

/-- Python `k in d` for a dict. -/
def hasKey (d : PyDict) (k : String) : Bool :=
  (d.find? (fun p => p.1 == k)).isSome

/-- Whitespace characters removed by Python `str.strip()` (ASCII subset:
space, tab, newline, carriage return, vertical tab, form feed). -/
def pyIsSpace (c : Char) : Bool :=
  c = ' ' || c = '\t' || c = '\n' || c = '\r' || c = '\x0b' || c = '\x0c'

/-- Python `s.strip()`: remove leading and trailing whitespace. -/
def pyStrip (s : String) : String :=
  String.mk (((s.toList.dropWhile pyIsSpace).reverse.dropWhile pyIsSpace).reverse)

/-- Python truthiness of the `OPENAI_API_KEY` value returned by
`os.getenv`: `None` and the empty string are falsy. -/
def keyTruthy : Option String → Bool
  | none => false
  | some s => !(s == "")

/-- Python truthiness of a JSON value (`None`, `False`, `0`, `""`, `[]` and
`{}` are falsy). -/
def jTruthy : JVal → Bool
  | .null => false
  | .bool b => b
  | .num q => !(q == 0)
  | .str s => !(s == "")
  | .list xs => !xs.isEmpty
  | .obj fs => !fs.isEmpty

/-- Python `isinstance(v, list)` on a JSON value. -/
def isList : JVal → Bool
  | .list _ => true
  | _ => false

/-- The underlying list of a `JVal.list` (only used under an `isList` guard,
mirroring `body["messages"]` after the `isinstance` check). -/
def asList : JVal → List JVal
  | .list xs => xs
  | _ => []

/-- Values of Python `float`: finite rationals plus the special values
`inf`, `-inf` and `nan` that `float("inf")` etc. produce. -/
inductive PyFloat where
  | finite (q : Rat) : PyFloat
  | inf : PyFloat
  | neginf : PyFloat
  | nan : PyFloat

/-- Numeric value of a digit run, most significant first. -/
def digitsVal : List Char → Nat → Nat
  | [], acc => acc
  | c :: cs, acc => digitsVal cs (acc * 10 + (c.toNat - '0'.toNat))

/-- Rational value of `<intpart>.<fracpart>`. -/
def mantissaVal (ip fp : List Char) : Rat :=
  ((digitsVal (ip ++ fp) 0 : Int) : Rat) / (10 : Rat) ^ fp.length

/-- Parse the optional exponent digits (with optional sign) of a float
literal. -/
def parseExpPart (cs : List Char) : Option Int :=
  match cs with
  | '+' :: ds =>
      if !ds.isEmpty && ds.all Char.isDigit then some (digitsVal ds 0 : Int) else none
  | '-' :: ds =>
      if !ds.isEmpty && ds.all Char.isDigit then some (-(digitsVal ds 0 : Int)) else none
  | ds =>
      if !ds.isEmpty && ds.all Char.isDigit then some (digitsVal ds 0 : Int) else none

/-- Parse an unsigned decimal float literal: digits with optional fractional
part and optional decimal exponent. -/
def parseDecimalCore (cs : List Char) : Option Rat :=
  let ip := cs.takeWhile Char.isDigit
  let rest := cs.dropWhile Char.isDigit
  match rest with
  | [] => if ip.isEmpty then none else some (mantissaVal ip [])
  | '.' :: rest2 =>
      let fp := rest2.takeWhile Char.isDigit
      let rest3 := rest2.dropWhile Char.isDigit
      if ip.isEmpty && fp.isEmpty then none
      else
        match rest3 with
        | [] => some (mantissaVal ip fp)
        | e :: rest4 =>
            if e = 'e' || e = 'E' then
              (parseExpPart rest4).map (fun ex => mantissaVal ip fp * (10 : Rat) ^ ex)
            else none
  | e :: rest2 =>
      if (e = 'e' || e = 'E') && !ip.isEmpty then
        (parseExpPart rest2).map (fun ex => mantissaVal ip [] * (10 : Rat) ^ ex)
      else none

/-- Negate a Python float value. -/
def pyNeg : PyFloat → PyFloat
  | .finite q => .finite (-q)
  | .inf => .neginf
  | .neginf => .inf
  | .nan => .nan

/-- Parse an unsigned float magnitude: `inf`, `infinity`, `nan`
(case-insensitive) or a decimal literal. -/
def parseMagnitude (cs : List Char) : Option PyFloat :=
  let l := cs.map Char.toLower
  if l = "inf".toList || l = "infinity".toList then some .inf
  else if l = "nan".toList then some .nan
  else (parseDecimalCore cs).map .finite

/-- Model of Python `float(s)` on a string: surrounding whitespace is
stripped, then an optional sign followed by a float magnitude (digit-group
underscores are not modelled). -/
def parsePyFloat (s : String) : Option PyFloat :=
  match (pyStrip s).toList with
  | '+' :: rest => parseMagnitude rest
  | '-' :: rest => (parseMagnitude rest).map pyNeg
  | cs => parseMagnitude cs

/-- Model of Python `float(v)` on a JSON value: numbers and booleans coerce,
strings are parsed, anything else raises (the error text mirrors CPython's
messages, surfaced through `str(e)`). -/
def pyFloat : JVal → Except String PyFloat
  | .num q => .ok (.finite q)
  | .bool b => .ok (.finite (if b then 1 else 0))
  | .str s =>
      match parsePyFloat s with
      | some f => .ok f
      | none => .error ("could not convert string to float: " ++ s)
  | .null => .error "float() argument must be a string or a real number, not 'NoneType'"
  | .list _ => .error "float() argument must be a string or a real number, not 'list'"
  | .obj _ => .error "float() argument must be a string or a real number, not 'dict'"

/-- The single-element message list built from a trimmed `input` string:
`{"role": "user", "content": s}`. -/
def userMessage (s : String) : JVal :=
  .obj [("role", .str "user"), ("content", .str s)]

/-- The fixed validation-error detail of the chat endpoint. -/
def validationDetail : String := "Provide 'input' (string) or 'messages' (list)."

/-- Message resolution of the chat handler (`server.py` lines 69-75): if the
body has a `messages` key whose value is a list, use it as-is; otherwise
require `input` to be a string with non-whitespace content and build a
single user message from its stripped text, else fail with the validation
detail. -/
def resolveMessages (body : PyDict) : Except String (List JVal) :=
  if hasKey body "messages" && isList (dictGet body "messages") then
    .ok (asList (dictGet body "messages"))
  else
    match dictGet body "input" with
    | .str t => if pyStrip t = "" then .error validationDetail
                else .ok [userMessage (pyStrip t)]
    | _ => .error validationDetail

/-- Model resolution (`server.py` line 66): `body.get("model") or
"gpt-4o-mini"` — the body's `model` value when truthy, else the default. -/
def resolvedModel (body : PyDict) : JVal :=
  if jTruthy (dictGet body "model") then dictGet body "model" else .str "gpt-4o-mini"

/-- The arguments of one outbound `client.chat.completions.create` call. -/
structure ProviderCall where
  model : JVal
  messages : List JVal
  temperature : PyFloat

/-- The HTTP outcome of the chat endpoint: a success body
`{"model": model, "output": output}` (the output is the first choice's
message content, possibly `None`), or an `HTTPException` with a status code
and a detail string. -/
inductive ChatResponse where
  | ok (model : JVal) (output : Option String) : ChatResponse
  | error (status : Nat) (detail : String) : ChatResponse

/-- Result of one chat request: the HTTP response together with the provider
call that was made, if any (the handler makes at most one). -/
structure ChatOutcome where
  response : ChatResponse
  providerCall : Option ProviderCall

/-- The provider oracle: given model, messages and temperature, either the
first choice's message content (`none` when the provider returns no text) or
the string rendering of a raised exception. -/
abbrev Provider := JVal → List JVal → PyFloat → Except String (Option String)

/-- The chat endpoint (`server.py` lines 52-87).  Checks the credential
first (500), resolves the model, resolves the messages (400 on validation
failure), then inside the try-block coerces `temperature` with `float` and
calls the provider; any exception there is caught and surfaced as HTTP 500
with detail `"OpenAI error: " + str(e)`.  A `float` coercion failure raises
before the provider call is made. -/
def chat (key : Option String) (provider : Provider) (body : PyDict) : ChatOutcome :=
  if keyTruthy key then
    let model := resolvedModel body
    match resolveMessages body with
    | .error d => { response := .error 400 d, providerCall := none }
    | .ok messages =>
        match pyFloat (dictGetD body "temperature" (.num (0.7 : Rat))) with
        | .error e =>
            { response := .error 500 ("OpenAI error: " ++ e), providerCall := none }
        | .ok temp =>
            match provider model messages temp with
            | .error e =>
                { response := .error 500 ("OpenAI error: " ++ e),
                  providerCall := some ⟨model, messages, temp⟩ }
            | .ok text =>
                { response := .ok model text,
                  providerCall := some ⟨model, messages, temp⟩ }
  else
    { response := .error 500 "OPENAI_API_KEY missing", providerCall := none }

/-- The health-check response body (`server.py` lines 37-40). -/
structure HealthBody where
  ok : Bool
  provider : String

/-- The health endpoint: `{"ok": True, "provider": "openai" if
OPENAI_API_KEY else "unset"}`. -/
def health (key : Option String) : HealthBody :=
  { ok := true, provider := if keyTruthy key then "openai" else "unset" }

/-- The health route with its HTTP status: FastAPI returns a plain dict with
status 200. -/
def healthRoute (key : Option String) : Nat × HealthBody :=
  (200, health key)

/-- The fixed fallback HTML fragment of the root route. -/
def fallbackHtml : String := "<h1>AI Hub Backend</h1><p>Index bulunamadı.</p>"

/-- The root endpoint (`server.py` lines 43-49), parameterized by the
contents of a co-located `index.html` when it exists: returns the file's
contents verbatim, else the fallback fragment; `HTMLResponse` carries status
200 in both cases. -/
def rootRoute (indexHtml : Option String) : Nat × String :=
  match indexHtml with
  | some contents => (200, contents)
  | none => (200, fallbackHtml)

end AIHub

namespace AIHub

/-- A provider oracle that always succeeds with a fixed completion text. -/
def okProvider : Provider := fun _ _ _ => .ok (some "hi")

/-- A provider oracle that always raises, with `str(e) = "boom"`. -/
def errProvider : Provider := fun _ _ _ => .error "boom"

/-- The body `{"messages": []}` used to analyse the empty-list edge case. -/
def emptyMessagesBody : PyDict := [("messages", JVal.list [])]

theorem chat_key_false {key : Option String} {provider : Provider} {body : PyDict}
    (h : keyTruthy key = false) :
    chat key provider body =
      { response := .error 500 "OPENAI_API_KEY missing", providerCall := none } := by
  simp [chat, h]

theorem chat_validation {key : Option String} {provider : Provider} {body : PyDict}
    {d : String} (hk : keyTruthy key = true) (h : resolveMessages body = .error d) :
    chat key provider body = { response := .error 400 d, providerCall := none } := by
  simp [chat, hk, h]

theorem chat_call_spec {key : Option String} {provider : Provider} {body : PyDict}
    {c : ProviderCall} (h : (chat key provider body).providerCall = some c) :
    resolveMessages body = .ok c.messages ∧ c.model = resolvedModel body ∧
    pyFloat (dictGetD body "temperature" (.num (0.7 : Rat))) = .ok c.temperature := by
  unfold chat at h
  cases hk : keyTruthy key <;> simp [hk] at h
  cases hr : resolveMessages body with
  | error d => simp [hr] at h
  | ok msgs =>
    simp [hr] at h
    cases ht : pyFloat (dictGetD body "temperature" (.num (0.7 : Rat))) with
    | error e => simp [ht] at h
    | ok temp =>
      simp [ht] at h
      cases hp : provider (resolvedModel body) msgs temp <;> simp [hp] at h <;>
        subst h <;> exact ⟨rfl, rfl, rfl⟩

theorem chat_ok_model {key : Option String} {provider : Provider} {body : PyDict}
    {m : JVal} {o : Option String}
    (h : (chat key provider body).response = .ok m o) : m = resolvedModel body := by
  unfold chat at h
  cases hk : keyTruthy key <;> simp [hk] at h
  cases hr : resolveMessages body with
  | error d => simp [hr] at h
  | ok msgs =>
    simp [hr] at h
    cases ht : pyFloat (dictGetD body "temperature" (.num (0.7 : Rat))) with
    | error e => simp [ht] at h
    | ok temp =>
      simp [ht] at h
      cases hp : provider (resolvedModel body) msgs temp <;> simp [hp] at h
      exact h.1.symm

end AIHub

namespace AIHub

/-- Claim C2: when the body's `messages` field is absent or not a list and
`input` is a string with non-whitespace content, the message list passed to
any provider call is exactly the single-element list
`[{"role": "user", "content": t}]` with `t` the stripped input. -/
theorem C2_input_normalization (key : Option String) (provider : Provider)
    (body : PyDict) (t : String)
    (hm : (hasKey body "messages" && isList (dictGet body "messages")) = false)
    (hi : dictGet body "input" = .str t)
    (ht : pyStrip t ≠ "") :
    resolveMessages body = .ok [userMessage (pyStrip t)] ∧
    ∀ c, (chat key provider body).providerCall = some c →
      c.messages = [userMessage (pyStrip t)] := by
  have hres : resolveMessages body = .ok [userMessage (pyStrip t)] := by
    simp [resolveMessages, hm, hi, ht]
  refine ⟨hres, fun c hc => ?_⟩
  have hmsg := (chat_call_spec hc).1
  rw [hres] at hmsg
  exact (Except.ok.inj hmsg).symm

/-- Claim C2 witness: the body `{"input": "  Hello  "}` yields the message
list `[{"role": "user", "content": "Hello"}]`. -/
theorem C2_input_normalization_witness :
    resolveMessages [("input", JVal.str "  Hello  ")] = .ok [userMessage "Hello"] := by
  have h := C2_input_normalization (some "k") okProvider
    [("input", JVal.str "  Hello  ")] "  Hello  " (by rfl) (by rfl)
    (by intro h; exact absurd h (by decide))
  simpa using h.1

/-- Claim C3: when the body has a `messages` field whose value is a list, it
is used verbatim as the provider call's message list — no per-element
validation is performed, and `input` is ignored (the conclusion depends only
on the `messages` value). -/
theorem C3_messages_passthrough (key : Option String) (provider : Provider)
    (body : PyDict) (xs : List JVal)
    (hk : hasKey body "messages" = true)
    (hv : dictGet body "messages" = .list xs) :
    resolveMessages body = .ok xs ∧
    ∀ c, (chat key provider body).providerCall = some c → c.messages = xs := by
  have hres : resolveMessages body = .ok xs := by
    simp [resolveMessages, hk, hv, isList, asList]
  refine ⟨hres, fun c hc => ?_⟩
  have hmsg := (chat_call_spec hc).1
  rw [hres] at hmsg
  exact (Except.ok.inj hmsg).symm

/-- Claim C3 witness: a body holding both `messages` (a one-element list
with an unvalidated element) and `input` uses `messages` unchanged. -/
theorem C3_messages_passthrough_witness :
    resolveMessages
      [("messages", JVal.list [JVal.num 5]), ("input", JVal.str "ignored")] =
      .ok [JVal.num 5] := by
  have h := C3_messages_passthrough (some "k") okProvider
    [("messages", JVal.list [JVal.num 5]), ("input", JVal.str "ignored")]
    [JVal.num 5] (by rfl) (by rfl)
  exact h.1

/-- Claim C4: with a credential configured, when `messages` is absent or not
a list and `input` is absent, not a string, or blank after stripping, the
request fails with HTTP 400 and the fixed validation detail, and no provider
call is made. -/
theorem C4_blank_input_rejected (key : Option String) (provider : Provider)
    (body : PyDict)
    (hkey : keyTruthy key = true)
    (hm : (hasKey body "messages" && isList (dictGet body "messages")) = false)
    (hi : ∀ t, dictGet body "input" = .str t → pyStrip t = "") :
    (chat key provider body).response =
      .error 400 "Provide 'input' (string) or 'messages' (list)." ∧
    (chat key provider body).providerCall = none := by
  have hres : resolveMessages body = .error validationDetail := by
    unfold resolveMessages
    rw [hm]
    cases h : dictGet body "input" <;> simp
    case str t => simp [hi t h]
  rw [chat_validation hkey hres]
  exact ⟨rfl, rfl⟩

/-- Claim C4 witness: the whitespace-only body `{"input": "   "}` is
rejected with 400 and the fixed detail, with no provider call. -/
theorem C4_blank_input_rejected_witness :
    (chat (some "k") okProvider [("input", JVal.str "   ")]).response =
      .error 400 "Provide 'input' (string) or 'messages' (list)." ∧
    (chat (some "k") okProvider [("input", JVal.str "   ")]).providerCall = none :=
  C4_blank_input_rejected (some "k") okProvider [("input", JVal.str "   ")]
    (by rfl) (by rfl)
    (by intro t h; cases h; rfl)

/-- Claim C5: with no credential configured, every chat request — whatever
the body — fails with HTTP 500 and detail "OPENAI_API_KEY missing", before
any validation, and no provider call is made. -/
theorem C5_missing_credential (key : Option String) (provider : Provider)
    (body : PyDict) (hkey : keyTruthy key = false) :
    (chat key provider body).response = .error 500 "OPENAI_API_KEY missing" ∧
    (chat key provider body).providerCall = none := by
  rw [chat_key_false hkey]
  exact ⟨rfl, rfl⟩

/-- Claim C5 witness: with an unset key, even an invalid body gets the 500
configuration error rather than a 400. -/
theorem C5_missing_credential_witness :
    (chat none okProvider []).response = .error 500 "OPENAI_API_KEY missing" ∧
    (chat none okProvider []).providerCall = none :=
  C5_missing_credential none okProvider [] (by rfl)

end AIHub

namespace AIHub

/-- Claim C6: the resolved model is the body's `model` field when it is a
non-empty string, and the literal default "gpt-4o-mini" when it is absent or
empty; the same resolved model is passed to any provider call and echoed in
any success response. -/
theorem C6_model_resolution (key : Option String) (provider : Provider)
    (body : PyDict) :
    ((∃ s, dictGet body "model" = .str s ∧ s ≠ "") →
        resolvedModel body = dictGet body "model") ∧
    ((dictGet body "model" = .null ∨ dictGet body "model" = .str "") →
        resolvedModel body = .str "gpt-4o-mini") ∧
    (∀ c, (chat key provider body).providerCall = some c →
        c.model = resolvedModel body) ∧
    (∀ m o, (chat key provider body).response = .ok m o →
        m = resolvedModel body) := by
  refine ⟨?_, ?_, ?_, ?_⟩
  · rintro ⟨s, hs, hne⟩
    simp [resolvedModel, hs, jTruthy, hne]
  · rintro (h | h) <;> simp [resolvedModel, h, jTruthy]
  · intro c hc
    exact (chat_call_spec hc).2.1
  · intro m o h
    exact chat_ok_model h

/-- Claim C6 witness: a body with no `model` field resolves to the default
model, and a body with `model` equal to "gpt-4o" resolves to "gpt-4o". -/
theorem C6_model_resolution_witness :
    resolvedModel [("input", JVal.str "hi")] = .str "gpt-4o-mini" ∧
    resolvedModel [("model", JVal.str "gpt-4o")] = .str "gpt-4o" := by
  constructor
  · exact (C6_model_resolution (some "k") okProvider
      [("input", JVal.str "hi")]).2.1 (Or.inl rfl)
  · have h := (C6_model_resolution (some "k") okProvider
      [("model", JVal.str "gpt-4o")]).1 ⟨"gpt-4o", rfl, by decide⟩
    simpa using h

/-- Claim C7: once a request reaches the try-block (credential present,
messages resolved), a temperature-coercion failure or any exception raised
by the provider call is caught and surfaced as HTTP 500 with detail
"OpenAI error: " followed by the stringified error; the coercion failure
additionally makes no provider call. -/
theorem C7_provider_error_surfaced (key : Option String) (provider : Provider)
    (body : PyDict) (msgs : List JVal)
    (hkey : keyTruthy key = true)
    (hmsg : resolveMessages body = .ok msgs) :
    (∀ e, pyFloat (dictGetD body "temperature" (.num (0.7 : Rat))) = .error e →
        (chat key provider body).response = .error 500 ("OpenAI error: " ++ e) ∧
        (chat key provider body).providerCall = none) ∧
    (∀ temp e, pyFloat (dictGetD body "temperature" (.num (0.7 : Rat))) = .ok temp →
        provider (resolvedModel body) msgs temp = .error e →
        (chat key provider body).response = .error 500 ("OpenAI error: " ++ e)) := by
  constructor
  · intro e he
    constructor <;> simp [chat, hkey, hmsg, he]
  · intro temp e ht hp
    simp [chat, hkey, hmsg, ht, hp]

/-- Claim C7 witness: with body `{"input": "hi"}` and a provider raising
"boom", the response is 500 with detail "OpenAI error: boom"; with body
`{"input": "hi", "temperature": null}` the float coercion fails and the
response is the 500 OpenAI-error detail with no provider call made. -/
theorem C7_provider_error_surfaced_witness :
    (chat (some "k") errProvider [("input", JVal.str "hi")]).response =
      .error 500 ("OpenAI error: " ++ "boom") ∧
    ((chat (some "k") errProvider
        [("input", JVal.str "hi"), ("temperature", JVal.null)]).response =
      .error 500 ("OpenAI error: " ++
        "float() argument must be a string or a real number, not 'NoneType'") ∧
     (chat (some "k") errProvider
        [("input", JVal.str "hi"), ("temperature", JVal.null)]).providerCall = none) := by
  constructor
  · exact (C7_provider_error_surfaced (some "k") errProvider
      [("input", JVal.str "hi")] [userMessage "hi"] (by rfl) (by rfl)).2
      (.finite (0.7 : Rat)) "boom" (by rfl) (by rfl)
  · exact (C7_provider_error_surfaced (some "k") errProvider
      [("input", JVal.str "hi"), ("temperature", JVal.null)] [userMessage "hi"]
      (by rfl) (by rfl)).1
      "float() argument must be a string or a real number, not 'NoneType'" (by rfl)

/-- Claim C8: the health endpoint always answers 200 with `ok = true`, and
its `provider` field is "openai" exactly when a credential is configured
and "unset" otherwise. -/
theorem C8_health_reflects_config (key : Option String) :
    (healthRoute key).1 = 200 ∧
    (health key).ok = true ∧
    ((health key).provider = "openai" ↔ keyTruthy key = true) ∧
    (keyTruthy key = false → (health key).provider = "unset") := by
  refine ⟨rfl, rfl, ?_, ?_⟩
  · cases h : keyTruthy key <;> simp [health, h]
  · intro h
    simp [health, h]

/-- Claim C8 witness: with no credential the health body reports "unset",
and with a credential it reports "openai". -/
theorem C8_health_reflects_config_witness :
    (health none).provider = "unset" ∧ (health (some "k")).provider = "openai" := by
  constructor
  · exact (C8_health_reflects_config none).2.2.2 (by rfl)
  · exact (C8_health_reflects_config (some "k")).2.2.1.mpr (by rfl)

/-- Claim C9: the root route returns HTTP 200 in both cases; it returns the
index file's contents verbatim when the file exists, and the fixed fallback
fragment when it does not. -/
theorem C9_root_page (indexHtml : Option String) :
    (rootRoute indexHtml).1 = 200 ∧
    (∀ c, indexHtml = some c → (rootRoute indexHtml).2 = c) ∧
    (indexHtml = none →
        (rootRoute indexHtml).2 = "<h1>AI Hub Backend</h1><p>Index bulunamadı.</p>") := by
  refine ⟨?_, ?_, ?_⟩ <;> cases indexHtml <;>
    simp [rootRoute, fallbackHtml]

/-- Claim C9 witness: with no index file the root route is 200 with the
fallback fragment; with an index file its contents come back verbatim. -/
theorem C9_root_page_witness :
    (rootRoute none).1 = 200 ∧
    (rootRoute none).2 = "<h1>AI Hub Backend</h1><p>Index bulunamadı.</p>" ∧
    (rootRoute (some "<html>x</html>")).2 = "<html>x</html>" := by
  refine ⟨(C9_root_page none).1, (C9_root_page none).2.2 rfl, ?_⟩
  exact (C9_root_page (some "<html>x</html>")).2.1 "<html>x</html>" rfl

/-- Claim C10: a body whose `messages` field is the empty list is accepted:
message resolution succeeds with `[]`, no 400 response can arise, the empty
list is forwarded to the provider call whenever the temperature coercion
succeeds, and in general a validation error is only reachable when
`messages` is absent or not a list. -/
theorem C10_empty_messages_accepted (key : Option String) (provider : Provider)
    (body : PyDict)
    (hkey : keyTruthy key = true)
    (hk : hasKey body "messages" = true)
    (hv : dictGet body "messages" = .list []) :
    resolveMessages body = .ok [] ∧
    (∀ d, (chat key provider body).response ≠ .error 400 d) ∧
    (∀ temp, pyFloat (dictGetD body "temperature" (.num (0.7 : Rat))) = .ok temp →
        (chat key provider body).providerCall =
          some ⟨resolvedModel body, [], temp⟩) ∧
    (∀ b d, resolveMessages b = .error d →
        (hasKey b "messages" && isList (dictGet b "messages")) = false) := by
  have hres : resolveMessages body = .ok [] := by
    simp [resolveMessages, hk, hv, isList, asList]
  refine ⟨hres, ?_, ?_, ?_⟩
  · intro d h
    unfold chat at h
    simp [hkey, hres] at h
    cases ht : pyFloat (dictGetD body "temperature" (.num (0.7 : Rat))) with
    | error e => simp [ht] at h
    | ok temp =>
      simp [ht] at h
      cases hp : provider (resolvedModel body) [] temp <;> simp [hp] at h
  · intro temp ht
    unfold chat
    simp [hkey, hres, ht]
    cases hp : provider (resolvedModel body) [] temp <;> simp [hp]
  · intro b d h
    cases hg : hasKey b "messages" && isList (dictGet b "messages") with
    | false => rfl
    | true => simp [resolveMessages, hg] at h

/-- Claim C10 witness: the body `{"messages": []}` with a configured key
resolves to the empty message list, is never rejected with 400, and the
default temperature 0.7 coerces so the empty list is forwarded. -/
theorem C10_empty_messages_accepted_witness :
    resolveMessages emptyMessagesBody = .ok [] ∧
    (chat (some "k") okProvider emptyMessagesBody).providerCall =
      some ⟨.str "gpt-4o-mini", [], .finite (0.7 : Rat)⟩ := by
  have h := C10_empty_messages_accepted (some "k") okProvider emptyMessagesBody
    (by rfl) (by rfl) (by rfl)
  refine ⟨h.1, ?_⟩
  have h2 := h.2.2.1 (.finite (0.7 : Rat)) (by rfl)
  simpa [resolvedModel, emptyMessagesBody, dictGet, jTruthy] using h2

end AIHub

namespace AIHub

/-- Claim C1 as stated is false: the body `{"messages": []}` is accepted
(the response is a 200 success, never a 400 validation error), yet its
`messages` field is not a non-empty list and it has no `input` string with
non-whitespace content — neither of the two "valid shapes" holds. -/
theorem C1_counterexample :
    (chat (some "k") okProvider emptyMessagesBody).response =
      .ok (.str "gpt-4o-mini") (some "hi") ∧
    (∀ d, (chat (some "k") okProvider emptyMessagesBody).response ≠ .error 400 d) ∧
    ¬ (∃ xs, dictGet emptyMessagesBody "messages" = .list xs ∧ xs ≠ []) ∧
    ¬ (∃ t, dictGet emptyMessagesBody "input" = .str t ∧ pyStrip t ≠ "") := by
  refine ⟨rfl, ?_, ?_, ?_⟩
  · intro d h
    rw [show (chat (some "k") okProvider emptyMessagesBody).response =
      .ok (.str "gpt-4o-mini") (some "hi") from rfl] at h
    exact ChatResponse.noConfusion h
  · rintro ⟨xs, h1, h2⟩
    rw [show dictGet emptyMessagesBody "messages" = .list [] from rfl] at h1
    exact h2 (JVal.list.inj h1).symm
  · rintro ⟨t, h1, h2⟩
    rw [show dictGet emptyMessagesBody "input" = JVal.null from rfl] at h1
    exact JVal.noConfusion h1

/-- Claim C1 (amended): for every chat request with a configured credential
that is not rejected with a 400 validation error, either the body has a
`messages` field whose value is a list (possibly empty) which message
resolution returns verbatim, or `input` is a string with non-whitespace
content and resolution returns the single trimmed user message. -/
theorem C1_accepted_invariant (key : Option String) (provider : Provider)
    (body : PyDict)
    (hkey : keyTruthy key = true)
    (hacc : ∀ d, (chat key provider body).response ≠ .error 400 d) :
    (∃ xs, dictGet body "messages" = .list xs ∧ resolveMessages body = .ok xs) ∨
    (∃ t, dictGet body "input" = .str t ∧ pyStrip t ≠ "" ∧
        resolveMessages body = .ok [userMessage (pyStrip t)]) := by
  have hok : ∀ d, resolveMessages body ≠ .error d := by
    intro d h
    exact hacc d (by rw [chat_validation hkey h])
  cases hg : hasKey body "messages" && isList (dictGet body "messages") with
  | true =>
    left
    have hl : isList (dictGet body "messages") = true := by
      have h := hg
      simp only [Bool.and_eq_true] at h
      exact h.2
    cases hv : dictGet body "messages"
    case list xs =>
      refine ⟨xs, rfl, ?_⟩
      unfold resolveMessages
      rw [hg]
      simp [hv, asList]
    all_goals (rw [hv] at hl; simp [isList] at hl)
  | false =>
    right
    cases hv : dictGet body "input"
    case str t =>
      by_cases hts : pyStrip t = ""
      · exact absurd (by simp [resolveMessages, hg, hv, hts]) (hok validationDetail)
      · exact ⟨t, rfl, hts, by simp [resolveMessages, hg, hv, hts]⟩
    all_goals exact absurd (by simp [resolveMessages, hg, hv]) (hok validationDetail)

/-- Claim C1 (amended) witness: the accepted body `{"input": " hi "}`
satisfies the amended invariant through its trimmed input. -/
theorem C1_accepted_invariant_witness :
    (∃ xs, dictGet [("input", JVal.str " hi ")] "messages" = .list xs ∧
        resolveMessages [("input", JVal.str " hi ")] = .ok xs) ∨
    (∃ t, dictGet [("input", JVal.str " hi ")] "input" = .str t ∧ pyStrip t ≠ "" ∧
        resolveMessages [("input", JVal.str " hi ")] = .ok [userMessage (pyStrip t)]) :=
  C1_accepted_invariant (some "k") okProvider [("input", JVal.str " hi ")] (by rfl)
    (fun d h => by
      rw [show (chat (some "k") okProvider [("input", JVal.str " hi ")]).response =
        .ok (.str "gpt-4o-mini") (some "hi") from rfl] at h
      exact ChatResponse.noConfusion h)

end AIHub
